import Mathlib

/-!
Shallow embedding of `src/index.js` (a WhatsApp verification / order-status
bot).  The three global JavaScript `Map`s are modelled as association lists
keyed by strings; the remote HTTP calls (user listing, ticket creation,
ticket update, order fetch) are modelled as oracle fields of an `Env`
record, each an `Except Unit _` where `Except.error ()` stands for a thrown
exception (network error or a deliberately thrown `Error`).  `Date.now()`
and the entropy consumed by `crypto.randomInt` are further `Env` fields, so
every handler is a pure function of the environment and the mutable state.
-/

/-- Model of JavaScript `Map.prototype.get`: first binding for the key. -/
def mapGet {α : Type} : List (String × α) → String → Option α
  | [], _ => none
  | p :: rest, k => if p.1 = k then some p.2 else mapGet rest k

/-- Model of JavaScript `Map.prototype.delete`: remove all bindings of the key. -/
def mapDelete {α : Type} : List (String × α) → String → List (String × α)
  | [], _ => []
  | p :: rest, k => if p.1 = k then mapDelete rest k else p :: mapDelete rest k

/-- Model of JavaScript `Map.prototype.set`: bind the key, dropping older bindings. -/
def mapSet {α : Type} (m : List (String × α)) (k : String) (v : α) :
    List (String × α) :=
  (k, v) :: mapDelete m k

/-- Model of JavaScript `Map.prototype.has`. -/
def mapHas {α : Type} (m : List (String × α)) (k : String) : Bool :=
  (mapGet m k).isSome

theorem mapGet_delete {α : Type} (m : List (String × α)) (k k' : String) :
    mapGet (mapDelete m k) k' = if k' = k then none else mapGet m k' := by
  induction m with
  | nil => simp [mapDelete, mapGet]
  | cons p rest ih =>
    by_cases hpk : p.1 = k
    · rw [mapDelete, if_pos hpk, ih]
      by_cases hk : k' = k
      · rw [if_pos hk, if_pos hk]
      · rw [if_neg hk, if_neg hk, mapGet]
        have hpk' : ¬ p.1 = k' := fun h => hk (by rw [← h, hpk])
        rw [if_neg hpk']
    · rw [mapDelete, if_neg hpk, mapGet, mapGet]
      by_cases hpk' : p.1 = k'
      · have hk : ¬ k' = k := fun h => hpk (by rw [hpk', h])
        rw [if_pos hpk', if_pos hpk', if_neg hk]
      · rw [if_neg hpk', if_neg hpk', ih]

theorem mapGet_set {α : Type} (m : List (String × α)) (k k' : String) (v : α) :
    mapGet (mapSet m k v) k' = if k' = k then some v else mapGet m k' := by
  by_cases hk : k' = k
  · simp [mapSet, mapGet, hk]
  · have : ¬ k = k' := fun h => hk h.symm
    simp [mapSet, mapGet, this, hk, mapGet_delete]

theorem mapHas_iff {α : Type} (m : List (String × α)) (k : String) :
    mapHas m k = true ↔ ∃ v, mapGet m k = some v := by
  simp [mapHas, Option.isSome_iff_exists]

/-- Entry of `verificationCodes`: `{code, username, timestamp}` (line 116). -/
structure PendingVerification where
  code : String
  username : String
  timestamp : Nat
deriving DecidableEq, Repr

/-- The three global `Map`s of the program (lines 14-16). -/
structure BotState where
  verificationCodes : List (String × PendingVerification)
  verifiedUsers : List (String × String)
  pendingTickets : List (String × String)
deriving DecidableEq, Repr

/-- The maps all start empty. -/
def initialState : BotState := ⟨[], [], []⟩

/-- One record of `GET /users` response list (fields the code reads). -/
structure User where
  username : String
  email : String
deriving DecidableEq, Repr

/-- `POST /tickets/add` response payload (fields the code reads). -/
structure TicketAddResp where
  error_code : Int
  ticket_id : String
deriving DecidableEq, Repr

/-- `GET /orders/id` response `data` payload (fields the code reads). -/
structure OrderData where
  id : String
  service_name : String
  status : String
  quantity : String
  remains : String
  created : String
  link : String
deriving DecidableEq, Repr

/-- `GET /orders/id` response payload. -/
structure OrderResp where
  error_code : Int
  data : OrderData
deriving DecidableEq, Repr

/-- Oracle for everything outside the handler: the outcome each remote call
would have if issued (`Except.error ()` = the call throws), the current
clock, and the entropy drawn by `crypto.randomInt`. -/
structure Env where
  usersList : Except Unit (List User)
  ticketAdd : Except Unit TicketAddResp
  ticketUpdate : Except Unit Unit
  orderFetch : Except Unit OrderResp
  randomDraw : Nat
  now : Nat

/-- Numeric value returned by `crypto.randomInt(100000, 999999)` (line 115):
a uniform integer with inclusive lower bound 100000 and EXCLUSIVE upper
bound 999999, modelled as an arbitrary entropy draw reduced into the range
`[100000, 999998]`. -/
def generateCodeVal (draw : Nat) : Nat :=
  100000 + draw % 899999

/-- Little-endian decimal digits of `n`, with an explicit fuel bound so the
recursion is structural (`decDigitsAux_eq_digits` identifies it with
`Nat.digits 10`). -/
def decDigitsAux : Nat → Nat → List Nat
  | 0, _ => []
  | fuel + 1, n => if n = 0 then [] else n % 10 :: decDigitsAux fuel (n / 10)

/-- Model of JavaScript `Number.prototype.toString()` (base 10) on a
non-negative integer: its decimal digits, most significant first. -/
def jsNatToString (n : Nat) : String :=
  if n = 0 then "0" else String.mk ((decDigitsAux n n).reverse.map Nat.digitChar)

theorem decDigitsAux_eq_digits : ∀ fuel n, n ≤ fuel → decDigitsAux fuel n = Nat.digits 10 n := by
  intro fuel
  induction fuel with
  | zero =>
    intro n hn
    have : n = 0 := Nat.le_zero.mp hn
    simp [this, decDigitsAux]
  | succ fuel ih =>
    intro n hn
    by_cases h0 : n = 0
    · simp [h0, decDigitsAux]
    · rw [decDigitsAux, if_neg h0,
        Nat.digits_def' (b := 10) (by norm_num) (Nat.pos_of_ne_zero h0),
        ih (n / 10) ?_]
      have h10 : n / 10 < n := Nat.div_lt_self (Nat.pos_of_ne_zero h0) (by norm_num)
      omega

/-- `crypto.randomInt(100000, 999999).toString()` (line 115). -/
def generateCode (draw : Nat) : String :=
  jsNatToString (generateCodeVal draw)

/-- The distinct outbound messages, one constructor per `client.sendText`
call site, parameterised by the data interpolated into the text. -/
inductive Reply where
  | usernameNotFound
  | verificationCodeSent (username code : String)
  | couldNotInitiateVerification
  | noActiveVerificationRequest
  | verificationCodeExpired
  | invalidVerificationCode
  | verificationSuccessful (username : String)
  | couldNotCompleteVerification
  | helpText (username : String)
  | provideOrderId
  | orderStatus (id service status quantity remains created link : String)
  | couldNotFetchOrder
  | defaultGreeting (username : String)
deriving DecidableEq, Repr

/-- Whitespace class used by `String.prototype.trim()` for the inputs we
consider: space, tab, line feed, carriage return. -/
def jsWhitespace (c : Char) : Bool :=
  c = ' ' || c = '\t' || c = '\n' || c = '\r'

/-- Model of JavaScript `String.prototype.trim()`: strip leading and
trailing whitespace. -/
def jsTrim (s : String) : String :=
  String.mk (((s.data.dropWhile jsWhitespace).reverse.dropWhile jsWhitespace).reverse)

/-- Model of JavaScript `String.prototype.toLowerCase()` (ASCII case fold,
which covers the command keywords the code compares against). -/
def jsToLowerCase (s : String) : String :=
  String.mk (s.data.map Char.toLower)

/-- Model of JavaScript `String.prototype.startsWith(pre)`. -/
def jsStartsWith (s pre : String) : Bool :=
  pre.data.isPrefixOf s.data

/-- Splitter for JavaScript `msg.split(' ')`: cut at every single space,
keeping empty fragments (so consecutive spaces yield empty tokens). -/
def splitOnSpaceAux : List Char → List Char → List String
  | [], acc => [String.mk acc.reverse]
  | c :: cs, acc =>
    if c = ' ' then String.mk acc.reverse :: splitOnSpaceAux cs []
    else splitOnSpaceAux cs (c :: acc)

/-- Model of JavaScript `String.prototype.split(' ')`. -/
def jsSplitOnSpace (s : String) : List String :=
  splitOnSpaceAux s.data []

/-- Model of the regular-expression test `/^\d+$/.test(msg)` (line 63): the
string is non-empty and every character is an ASCII digit. -/
def regexDigitsTest (msg : String) : Bool :=
  !msg.data.isEmpty && msg.data.all (fun c => c.isDigit)

/-- `handleUsernameSubmission` (lines 74-137).  The `try` block covers the
user listing, the `find`, and the ticket creation; a thrown error anywhere
(including the explicit `throw` on non-zero `error_code`) reaches the
`catch`, which sends the generic retry message.  On success the ticket id
and the freshly generated code are stored. -/
def handleUsernameSubmission (env : Env) (s : BotState) (phone username : String) :
    BotState × Reply :=
  match env.usersList with
  | Except.error _ => (s, Reply.couldNotInitiateVerification)
  | Except.ok list =>
    match list.find? (fun u => u.username == username || u.email == username) with
    | none => (s, Reply.usernameNotFound)
    | some user =>
      match env.ticketAdd with
      | Except.error _ => (s, Reply.couldNotInitiateVerification)
      | Except.ok resp =>
        if resp.error_code ≠ 0 then
          (s, Reply.couldNotInitiateVerification)
        else
          let ticketId := resp.ticket_id
          let s1 : BotState :=
            { s with pendingTickets := mapSet s.pendingTickets user.username ticketId }
          let verificationCode := generateCode env.randomDraw
          let entry : PendingVerification := ⟨verificationCode, user.username, env.now⟩
          let s2 : BotState :=
            { s1 with verificationCodes := mapSet s1.verificationCodes phone entry }
          (s2, Reply.verificationCodeSent user.username verificationCode)

/-- `handleVerificationCode` (lines 140-200).  Note the order of effects on
a successful match: `verifiedUsers.set` and `verificationCodes.delete`
happen BEFORE the awaited ticket-update call, so they persist even when
that call throws; but the throw is caught by the same `catch`, which then
sends the failure reply instead of the success reply, and skips the
`pendingTickets.delete`. -/
def handleVerificationCode (env : Env) (s : BotState) (phone code : String) :
    BotState × Reply :=
  match mapGet s.verificationCodes phone with
  | none => (s, Reply.noActiveVerificationRequest)
  | some storedData =>
    if env.now - storedData.timestamp > 600000 then
      ({ s with verificationCodes := mapDelete s.verificationCodes phone },
       Reply.verificationCodeExpired)
    else if code ≠ storedData.code then
      (s, Reply.invalidVerificationCode)
    else
      let s1 : BotState :=
        { s with verifiedUsers := mapSet s.verifiedUsers phone storedData.username,
                 verificationCodes := mapDelete s.verificationCodes phone }
      match mapGet s1.pendingTickets storedData.username with
      | some _ =>
        match env.ticketUpdate with
        | Except.error _ => (s1, Reply.couldNotCompleteVerification)
        | Except.ok _ =>
          ({ s1 with pendingTickets := mapDelete s1.pendingTickets storedData.username },
           Reply.verificationSuccessful storedData.username)
      | none => (s1, Reply.verificationSuccessful storedData.username)

/-- `handleVerifiedUser` (lines 203-265).  It never writes to any map, so it
is modelled as returning only the reply.  `msg.toLowerCase()` guards the
command matches; the order id is `msg.split(' ')[1]`, and a missing or
empty token (JavaScript falsy) triggers the usage reply. -/
def handleVerifiedUser (env : Env) (s : BotState) (phone msg : String) : Reply :=
  let username := (mapGet s.verifiedUsers phone).getD ""
  if jsToLowerCase msg = "/help" then
    Reply.helpText username
  else if jsStartsWith (jsToLowerCase msg) "/order " then
    let orderId := ((jsSplitOnSpace msg)[1]?).getD ""
    if orderId = "" then
      Reply.provideOrderId
    else
      match env.orderFetch with
      | Except.error _ => Reply.couldNotFetchOrder
      | Except.ok resp =>
        if resp.error_code ≠ 0 then
          Reply.couldNotFetchOrder
        else
          let order := resp.data
          Reply.orderStatus order.id order.service_name order.status order.quantity
            order.remains order.created (if order.link = "" then "N/A" else order.link)
  else
    Reply.defaultGreeting username

/-- An inbound event: `message.from` and `message.body` (absent bodies are
modelled as `none`; `(message.body || '')` turns them into `""`). -/
structure InboundMessage where
  sender : String
  body : Option String

/-- `handleMessage` (lines 53-71): trim the body, then dispatch — verified
phones go to the command router, phones with a pending entry sending a
6-character all-digit message go to code verification, any other non-empty
message is a username submission, and an empty message gets no reply. -/
def handleMessage (env : Env) (s : BotState) (message : InboundMessage) :
    BotState × Option Reply :=
  let phone := message.sender
  let msg := jsTrim (message.body.getD "")
  if mapHas s.verifiedUsers phone then
    (s, some (handleVerifiedUser env s phone msg))
  else if mapHas s.verificationCodes phone && msg.length == 6 && regexDigitsTest msg then
    let r := handleVerificationCode env s phone msg
    (r.1, some r.2)
  else if msg.length > 0 then
    let r := handleUsernameSubmission env s phone msg
    (r.1, some r.2)
  else
    (s, none)

/-- Concrete environment where every remote call succeeds: the user listing
contains `alice`, ticket creation returns ticket `T1` with error code 0,
the ticket update succeeds, and order fetches succeed. -/
def envOkW : Env :=
  ⟨Except.ok [⟨"alice", "alice@example.com"⟩], Except.ok ⟨0, "T1"⟩, Except.ok (),
   Except.ok ⟨0, ⟨"9", "s", "done", "10", "0", "d", ""⟩⟩, 42, 1000⟩

/-- Concrete state: phone `p` has the pending code `123456` for `alice`
issued at time 0, with ticket `T1` pending for `alice`. -/
def statePendingW : BotState := ⟨[("p", ⟨"123456", "alice", 0⟩)], [], [("alice", "T1")]⟩

/-- Concrete state: phone `p` is verified as `alice`. -/
def stateVerifiedW : BotState := ⟨[], [("p", "alice")], []⟩

/-- C9: while a pending verification is unexpired, submitting a code that
does not match the stored one leaves the whole state — in particular the
pending entry with its code, username and timestamp — unchanged, and emits
the invalid-code reply, so the user can retry. -/
theorem mismatch_code_preserves_pending (env : Env) (s : BotState)
    (phone code : String) (d : PendingVerification)
    (hd : mapGet s.verificationCodes phone = some d)
    (hexp : ¬ env.now - d.timestamp > 600000)
    (hne : code ≠ d.code) :
    handleVerificationCode env s phone code = (s, Reply.invalidVerificationCode) := by
  simp [handleVerificationCode, hd, hexp, hne]

/-- Witness for C9 at a concrete input. -/
theorem mismatch_code_preserves_pending_witness :
    handleVerificationCode envOkW statePendingW "p" "999999" =
      (statePendingW, Reply.invalidVerificationCode) :=
  mismatch_code_preserves_pending envOkW statePendingW "p" "999999"
    ⟨"123456", "alice", 0⟩ (by decide) (by decide) (by decide)

/-- C3 counterexample: with the pending code issued at time 0 and the clock
at exactly 600000 ms, a matching code is ACCEPTED (success reply, user
verified), not rejected as expired — the expiry comparison is strict. -/
theorem boundary_code_accepted_at_600000 :
    handleVerificationCode {envOkW with now := 600000} statePendingW "p" "123456" =
      (⟨[], [("p", "alice")], []⟩, Reply.verificationSuccessful "alice") ∧
    Reply.verificationSuccessful "alice" ≠ Reply.verificationCodeExpired := by
  constructor
  · decide
  · decide

/-- C3 amended: a code submitted when `now - issuedAt` is STRICTLY greater
than 600000 ms is rejected as expired and the pending entry is deleted as a
side effect of that rejection; at exactly 600000 ms the code is still
within the validity window. -/
theorem expired_code_rejected_and_deleted (env : Env) (s : BotState)
    (phone code : String) (d : PendingVerification)
    (hd : mapGet s.verificationCodes phone = some d)
    (hexp : env.now - d.timestamp > 600000) :
    handleVerificationCode env s phone code =
      ({ s with verificationCodes := mapDelete s.verificationCodes phone },
       Reply.verificationCodeExpired) := by
  simp [handleVerificationCode, hd, hexp]

/-- Witness for the amended C3 at a concrete input. -/
theorem expired_code_rejected_and_deleted_witness :
    handleVerificationCode {envOkW with now := 600001} statePendingW "p" "123456" =
      ({ statePendingW with
          verificationCodes := mapDelete statePendingW.verificationCodes "p" },
       Reply.verificationCodeExpired) :=
  expired_code_rejected_and_deleted {envOkW with now := 600001} statePendingW
    "p" "123456" ⟨"123456", "alice", 0⟩ (by decide) (by decide)

/-- C1 counterexample: the code matches and is unexpired, but the awaited
ticket update throws; the catch sends the failure reply instead of the
success reply (although the verified state was already committed and the
pending ticket survives). -/
theorem ticket_update_throw_replaces_success_reply :
    handleVerificationCode {envOkW with ticketUpdate := Except.error ()} statePendingW
        "p" "123456" =
      (⟨[], [("p", "alice")], [("alice", "T1")]⟩, Reply.couldNotCompleteVerification) ∧
    Reply.couldNotCompleteVerification ≠ Reply.verificationSuccessful "alice" := by
  constructor
  · decide
  · decide

/-- C1 amended: once the submitted code matches within the validity window,
the verified state is committed no matter what the ticket update does (the
phone enters `verifiedUsers` and leaves `verificationCodes` before the
remote call); the user gets the success reply when no ticket is pending for
the username or the update succeeds, but when a pending ticket exists and
the update call throws, the caught exception makes the handler send the
failure reply instead. -/
theorem match_commits_state_reply_depends_on_ticket (env : Env) (s : BotState)
    (phone code : String) (d : PendingVerification)
    (hd : mapGet s.verificationCodes phone = some d)
    (hexp : ¬ env.now - d.timestamp > 600000)
    (hm : code = d.code) :
    mapGet (handleVerificationCode env s phone code).1.verifiedUsers phone =
      some d.username ∧
    mapGet (handleVerificationCode env s phone code).1.verificationCodes phone = none ∧
    ((mapGet s.pendingTickets d.username = none ∨ env.ticketUpdate = Except.ok ()) →
      (handleVerificationCode env s phone code).2 =
        Reply.verificationSuccessful d.username) ∧
    (mapGet s.pendingTickets d.username ≠ none → env.ticketUpdate = Except.error () →
      (handleVerificationCode env s phone code).2 =
        Reply.couldNotCompleteVerification) := by
  have hm' : ¬ code ≠ d.code := by simp [hm]
  simp only [handleVerificationCode, hd, if_neg hexp, if_neg hm']
  cases ht : mapGet s.pendingTickets d.username with
  | none => simp [ht, mapGet_set, mapGet_delete]
  | some t =>
    cases hu : env.ticketUpdate with
    | error e => simp [ht, hu, mapGet_set, mapGet_delete]
    | ok u => simp [ht, hu, mapGet_set, mapGet_delete]

/-- Witness for the amended C1 at a concrete input where the ticket update
throws: the failure reply is sent. -/
theorem match_commits_state_reply_depends_on_ticket_witness :
    (handleVerificationCode {envOkW with ticketUpdate := Except.error ()} statePendingW
        "p" "123456").2 = Reply.couldNotCompleteVerification :=
  (match_commits_state_reply_depends_on_ticket
      {envOkW with ticketUpdate := Except.error ()} statePendingW "p" "123456"
      ⟨"123456", "alice", 0⟩ (by decide) (by decide) rfl).2.2.2 (by decide) rfl

/-- The throw cases inside `handleUsernameSubmission`'s `try` block: the
user-listing call throws, or the listing succeeds and the user is found but
the ticket-creation call throws or returns a non-zero application error
code (which the handler itself turns into a throw, line 108). -/
def usernameSubmissionThrows (env : Env) (username : String) : Prop :=
  env.usersList = Except.error () ∨
  ∃ list user, env.usersList = Except.ok list ∧
    list.find? (fun u => u.username == username || u.email == username) = some user ∧
    (env.ticketAdd = Except.error () ∨
     ∃ resp, env.ticketAdd = Except.ok resp ∧ resp.error_code ≠ 0)

/-- C6: any exception during the user lookup or the ticket creation leaves
the entire state unchanged — in particular no `verificationCodes` entry is
stored for the phone — and the user receives the generic retry reply. -/
theorem exception_leaves_state_unchanged (env : Env) (s : BotState)
    (phone username : String) (h : usernameSubmissionThrows env username) :
    handleUsernameSubmission env s phone username =
      (s, Reply.couldNotInitiateVerification) := by
  rcases h with h | ⟨list, user, hl, hf, h2⟩
  · simp [handleUsernameSubmission, h]
  · rcases h2 with h2 | ⟨resp, ht, hne⟩
    · simp [handleUsernameSubmission, hl, hf, h2]
    · simp [handleUsernameSubmission, hl, hf, ht, hne]

/-- Witness for C6 at a concrete input where the lookup call throws. -/
theorem exception_leaves_state_unchanged_witness :
    handleUsernameSubmission {envOkW with usersList := Except.error ()} initialState
        "p" "alice" = (initialState, Reply.couldNotInitiateVerification) :=
  exception_leaves_state_unchanged {envOkW with usersList := Except.error ()}
    initialState "p" "alice" (Or.inl rfl)

/-- C4 counterexample: an unverified phone with NO pending entry sends the
6-digit all-digit message `123456`; the dispatcher routes it to the
identifier-submission flow (the lookup runs, answering not-found here), not
to the no-active-verification-request reply. -/
theorem six_digits_without_pending_goes_to_username_flow :
    handleMessage envOkW initialState ⟨"p", some "123456"⟩ =
      (initialState, some Reply.usernameNotFound) ∧
    Reply.usernameNotFound ≠ Reply.noActiveVerificationRequest := by
  constructor
  · decide
  · decide

/-- C4 amended: a 6-character all-digit message from an unverified phone
with no pending entry is treated as an identifier submission — the
dispatcher only interprets a message as a code when a pending entry exists,
so the no-active-request branch is not reached by it. -/
theorem no_pending_six_digit_treated_as_username (env : Env) (s : BotState)
    (phone body : String)
    (hv : mapGet s.verifiedUsers phone = none)
    (hc : mapGet s.verificationCodes phone = none)
    (h6 : (jsTrim body).length = 6)
    (_hdig : regexDigitsTest (jsTrim body) = true) :
    handleMessage env s ⟨phone, some body⟩ =
      ((handleUsernameSubmission env s phone (jsTrim body)).1,
       some (handleUsernameSubmission env s phone (jsTrim body)).2) := by
  have hlen : (jsTrim body).length > 0 := by omega
  simp [handleMessage, mapHas, hv, hc, hlen]

/-- Witness for the amended C4 at a concrete input. -/
theorem no_pending_six_digit_treated_as_username_witness :
    handleMessage envOkW initialState ⟨"p", some "123456"⟩ =
      ((handleUsernameSubmission envOkW initialState "p" (jsTrim "123456")).1,
       some (handleUsernameSubmission envOkW initialState "p" (jsTrim "123456")).2) :=
  no_pending_six_digit_treated_as_username envOkW initialState "p" "123456"
    (by decide) (by decide) (by decide) (by decide)

/-- In `handleVerifiedUser`, a message matching neither `/help` nor the
`/order ` prefix falls through to the default greeting. -/
theorem handleVerifiedUser_default (env : Env) (s : BotState) (phone msg : String)
    (h1 : ¬ jsToLowerCase msg = "/help")
    (h2 : ¬ jsStartsWith (jsToLowerCase msg) "/order " = true) :
    handleVerifiedUser env s phone msg =
      Reply.defaultGreeting ((mapGet s.verifiedUsers phone).getD "") := by
  simp [handleVerifiedUser, h1, h2]

/-- C10: the body is trimmed before dispatch, so a whitespace-only (or
absent) body behaves as the empty message: an unverified phone gets no
reply and no state change, a verified phone gets the default greeting. -/
theorem whitespace_only_message_behavior (env : Env) (s : BotState)
    (phone : String) (body : Option String)
    (h : jsTrim (body.getD "") = "") :
    (mapGet s.verifiedUsers phone = none →
       handleMessage env s ⟨phone, body⟩ = (s, none)) ∧
    (∀ u, mapGet s.verifiedUsers phone = some u →
       handleMessage env s ⟨phone, body⟩ = (s, some (Reply.defaultGreeting u))) := by
  constructor
  · intro hv
    simp [handleMessage, h, mapHas, hv]
  · intro u hv
    rw [handleMessage]
    simp only [h, mapHas, hv, Option.isSome_some, if_pos]
    rw [handleVerifiedUser_default env s phone "" (by decide) (by decide), hv]
    rfl

/-- Witness for C10 at a concrete whitespace-only input. -/
theorem whitespace_only_message_behavior_witness :
    handleMessage envOkW initialState ⟨"p", some "   "⟩ = (initialState, none) :=
  (whitespace_only_message_behavior envOkW initialState "p" (some "   ")
      (by decide)).1 (by decide)

/-- C8 counterexample: a verified user sends `/order` with no id; the
command match requires the prefix with a trailing space (`'/order '`), so
the message falls through to the DEFAULT greeting, not the usage error. -/
theorem bare_order_gives_default_greeting :
    handleMessage envOkW stateVerifiedW ⟨"p", some "/order"⟩ =
      (stateVerifiedW, some (Reply.defaultGreeting "alice")) ∧
    Reply.defaultGreeting "alice" ≠ Reply.provideOrderId := by
  constructor
  · decide
  · decide

/-- C8 amended: for a verified user, `/order` with no trailing content gets
the default greeting (the command only matches with the trailing space);
the usage-error reply occurs exactly when the message starts
(case-insensitively) with the 7 characters of the order prefix and the
token after the first space is empty or missing; the order id is the
second single-space-delimited token of the raw message. -/
theorem order_usage_error_needs_trailing_space (env : Env) (s : BotState)
    (phone msg u : String)
    (hv : mapGet s.verifiedUsers phone = some u) :
    (handleVerifiedUser env s phone "/order" = Reply.defaultGreeting u) ∧
    (jsStartsWith (jsToLowerCase msg) "/order " = true →
      ((jsSplitOnSpace msg)[1]?).getD "" = "" →
      handleVerifiedUser env s phone msg = Reply.provideOrderId) := by
  constructor
  · rw [handleVerifiedUser_default env s phone "/order" (by decide) (by decide), hv]
    rfl
  · intro hstart hempty
    have hnothelp : ¬ jsToLowerCase msg = "/help" := by
      intro h
      rw [h] at hstart
      exact absurd hstart (by decide)
    simp [handleVerifiedUser, hnothelp, hstart, hempty]

/-- Witness for the amended C8 at concrete inputs (the usage error needs a
message like a double-spaced `/order  9` to fire). -/
theorem order_usage_error_needs_trailing_space_witness :
    handleVerifiedUser envOkW stateVerifiedW "p" "/order  9" = Reply.provideOrderId :=
  (order_usage_error_needs_trailing_space envOkW stateVerifiedW "p" "/order  9" "alice"
      (by decide)).2 (by decide) (by decide)

/-- C7: a pending, unverified phone sending any non-empty message that is
not a 6-character all-digit string re-enters the identifier flow, and when
that flow succeeds (user found, ticket created with error code 0) the old
pending entry is overwritten with the freshly generated code and timestamp,
even though the old code was unexpired. -/
theorem pending_nondigit_is_fresh_submission (env : Env) (s : BotState)
    (phone body : String)
    (hv : mapGet s.verifiedUsers phone = none)
    (_hp : mapGet s.verificationCodes phone ≠ none)
    (hne : (jsTrim body).length > 0)
    (hnc : ¬ ((jsTrim body).length = 6 ∧ regexDigitsTest (jsTrim body) = true)) :
    handleMessage env s ⟨phone, some body⟩ =
      ((handleUsernameSubmission env s phone (jsTrim body)).1,
       some (handleUsernameSubmission env s phone (jsTrim body)).2) ∧
    (∀ list user resp,
      env.usersList = Except.ok list →
      list.find? (fun u => u.username == jsTrim body || u.email == jsTrim body) =
        some user →
      env.ticketAdd = Except.ok resp → resp.error_code = 0 →
      mapGet (handleMessage env s ⟨phone, some body⟩).1.verificationCodes phone =
        some ⟨generateCode env.randomDraw, user.username, env.now⟩) := by
  have hv' : mapHas s.verifiedUsers phone = false := by simp [mapHas, hv]
  have hcond : (mapHas s.verificationCodes phone &&
      ((jsTrim body).length == 6) && regexDigitsTest (jsTrim body)) = false := by
    cases hreg : regexDigitsTest (jsTrim body) with
    | false => simp
    | true =>
      have h6 : ((jsTrim body).length == 6) = false := by
        cases h6' : ((jsTrim body).length == 6) with
        | false => rfl
        | true => exact absurd ⟨by simpa using h6', hreg⟩ hnc
      simp [h6]
  have hdisp : handleMessage env s ⟨phone, some body⟩ =
      ((handleUsernameSubmission env s phone (jsTrim body)).1,
       some (handleUsernameSubmission env s phone (jsTrim body)).2) := by
    simp [handleMessage, hv', hcond, hne]
  refine ⟨hdisp, ?_⟩
  intro list user resp hl hf ht hec
  rw [hdisp]
  have hec' : ¬ resp.error_code ≠ 0 := by simp [hec]
  simp [handleUsernameSubmission, hl, hf, ht, hec', mapGet_set]

/-- Witness for C7 at a concrete input: the old unexpired entry for `p` is
replaced by the new code for `alice`. -/
theorem pending_nondigit_is_fresh_submission_witness :
    mapGet (handleMessage envOkW statePendingW ⟨"p", some "alice"⟩).1.verificationCodes
        "p" = some ⟨generateCode envOkW.randomDraw, "alice", envOkW.now⟩ :=
  (pending_nondigit_is_fresh_submission envOkW statePendingW "p" "alice"
      (by decide) (by decide) (by decide) (by decide)).2
    [⟨"alice", "alice@example.com"⟩] ⟨"alice", "alice@example.com"⟩ ⟨0, "T1"⟩
    rfl (by decide) rfl rfl

theorem mapHas_false {α : Type} (m : List (String × α)) (k : String)
    (h : mapHas m k = false) : mapGet m k = none := by
  unfold mapHas at h
  cases hg : mapGet m k with
  | none => rfl
  | some v => rw [hg] at h; simp at h

/-- State effect of `handleUsernameSubmission`: `verifiedUsers` is never
written, and `verificationCodes` is written at most at the sender's key. -/
theorem handleUsernameSubmission_state (env : Env) (s : BotState) (p u : String) :
    (handleUsernameSubmission env s p u).1.verifiedUsers = s.verifiedUsers ∧
    (∀ q, q ≠ p →
      mapGet (handleUsernameSubmission env s p u).1.verificationCodes q =
        mapGet s.verificationCodes q) := by
  cases hl : env.usersList with
  | error e => simp [handleUsernameSubmission, hl]
  | ok list =>
    cases hf : list.find? (fun v => v.username == u || v.email == u) with
    | none => simp [handleUsernameSubmission, hl, hf]
    | some user =>
      cases ht : env.ticketAdd with
      | error e => simp [handleUsernameSubmission, hl, hf, ht]
      | ok resp =>
        by_cases hec : resp.error_code ≠ 0
        · simp [handleUsernameSubmission, hl, hf, ht, hec]
        · constructor
          · simp [handleUsernameSubmission, hl, hf, ht, hec]
          · intro q hq
            simp [handleUsernameSubmission, hl, hf, ht, hec, mapGet_set, hq]

/-- State effect of `handleVerificationCode`: away from the sender's key
nothing changes, and at the sender's key either the state is untouched or
the pending entry is gone. -/
theorem handleVerificationCode_state (env : Env) (s : BotState) (p c : String) :
    ((handleVerificationCode env s p c).1 = s ∨
      mapGet (handleVerificationCode env s p c).1.verificationCodes p = none) ∧
    (∀ q, q ≠ p →
      mapGet (handleVerificationCode env s p c).1.verificationCodes q =
        mapGet s.verificationCodes q ∧
      mapGet (handleVerificationCode env s p c).1.verifiedUsers q =
        mapGet s.verifiedUsers q) := by
  cases hd : mapGet s.verificationCodes p with
  | none =>
    constructor
    · exact Or.inl (by simp [handleVerificationCode, hd])
    · intro q hq
      constructor <;> simp [handleVerificationCode, hd]
  | some d =>
    by_cases hexp : env.now - d.timestamp > 600000
    · constructor
      · refine Or.inr ?_
        simp [handleVerificationCode, hd, hexp, mapGet_delete]
      · intro q hq
        constructor <;> simp [handleVerificationCode, hd, hexp, mapGet_delete, hq]
    · by_cases hm : c ≠ d.code
      · constructor
        · exact Or.inl (by simp [handleVerificationCode, hd, hexp, hm])
        · intro q hq
          constructor <;> simp [handleVerificationCode, hd, hexp, hm]
      · cases ht : mapGet s.pendingTickets d.username with
        | none =>
          constructor
          · refine Or.inr ?_
            simp [handleVerificationCode, hd, hexp, hm, ht, mapGet_delete]
          · intro q hq
            constructor <;>
              simp [handleVerificationCode, hd, hexp, hm, ht,
                mapGet_delete, mapGet_set, hq]
        | some t =>
          cases hu : env.ticketUpdate with
          | error e =>
            constructor
            · refine Or.inr ?_
              simp [handleVerificationCode, hd, hexp, hm, ht, hu, mapGet_delete]
            · intro q hq
              constructor <;>
                simp [handleVerificationCode, hd, hexp, hm, ht, hu,
                  mapGet_delete, mapGet_set, hq]
          | ok w =>
            constructor
            · refine Or.inr ?_
              simp [handleVerificationCode, hd, hexp, hm, ht, hu, mapGet_delete]
            · intro q hq
              constructor <;>
                simp [handleVerificationCode, hd, hexp, hm, ht, hu,
                  mapGet_delete, mapGet_set, hq]

/-- Exclusivity: the phone is not simultaneously pending and verified. -/
def phoneExclusive (s : BotState) (phone : String) : Prop :=
  mapGet s.verificationCodes phone = none ∨ mapGet s.verifiedUsers phone = none

/-- C2: initially every phone is in neither map; processing any inbound
message preserves exclusivity (never pending and verified at once); and a
verified phone stays verified with the same username, with no pending
entry ever re-created for it. -/
theorem phone_three_state_invariant (env : Env) (s : BotState) (m : InboundMessage)
    (phone : String) :
    phoneExclusive initialState phone ∧
    (phoneExclusive s phone → phoneExclusive (handleMessage env s m).1 phone) ∧
    (∀ u, mapGet s.verifiedUsers phone = some u →
      mapGet (handleMessage env s m).1.verifiedUsers phone = some u ∧
      (mapGet s.verificationCodes phone = none →
        mapGet (handleMessage env s m).1.verificationCodes phone = none)) := by
  refine ⟨Or.inl rfl, ?_⟩
  by_cases hb1 : mapHas s.verifiedUsers m.sender = true
  · have hstep : (handleMessage env s m).1 = s := by
      simp [handleMessage, hb1]
    rw [hstep]
    exact ⟨fun h => h, fun u hu => ⟨hu, fun h => h⟩⟩
  · have hb1' : mapHas s.verifiedUsers m.sender = false := by
      cases h : mapHas s.verifiedUsers m.sender
      · rfl
      · exact absurd h hb1
    have hvnone : mapGet s.verifiedUsers m.sender = none := mapHas_false _ _ hb1'
    by_cases hb2 : (mapHas s.verificationCodes m.sender &&
        (jsTrim (m.body.getD "")).length == 6 &&
        regexDigitsTest (jsTrim (m.body.getD ""))) = true
    · have hstep : (handleMessage env s m).1 =
          (handleVerificationCode env s m.sender (jsTrim (m.body.getD ""))).1 := by
        simp [handleMessage, hb1', hb2]
      rw [hstep]
      have hfc := handleVerificationCode_state env s m.sender (jsTrim (m.body.getD ""))
      by_cases hpq : phone = m.sender
      · subst hpq
        constructor
        · intro hex
          rcases hfc.1 with h | h
          · rw [h]; exact hex
          · exact Or.inl h
        · intro u hu
          exact absurd hu (by rw [hvnone]; simp)
      · have hfr := hfc.2 phone hpq
        constructor
        · intro hex
          rcases hex with h | h
          · exact Or.inl (by rw [hfr.1, h])
          · exact Or.inr (by rw [hfr.2, h])
        · intro u hu
          exact ⟨by rw [hfr.2, hu], fun h => by rw [hfr.1, h]⟩
    · have hb2' : (mapHas s.verificationCodes m.sender &&
          (jsTrim (m.body.getD "")).length == 6 &&
          regexDigitsTest (jsTrim (m.body.getD ""))) = false := by
        cases h : (mapHas s.verificationCodes m.sender &&
            (jsTrim (m.body.getD "")).length == 6 &&
            regexDigitsTest (jsTrim (m.body.getD "")))
        · rfl
        · exact absurd h hb2
      by_cases hb3 : (jsTrim (m.body.getD "")).length > 0
      · have hstep : (handleMessage env s m).1 =
            (handleUsernameSubmission env s m.sender (jsTrim (m.body.getD ""))).1 := by
          simp [handleMessage, hb1', hb2', hb3]
        rw [hstep]
        have hus := handleUsernameSubmission_state env s m.sender (jsTrim (m.body.getD ""))
        by_cases hpq : phone = m.sender
        · subst hpq
          constructor
          · intro hex
            exact Or.inr (by rw [hus.1]; exact hvnone)
          · intro u hu
            exact absurd hu (by rw [hvnone]; simp)
        · have hfr := hus.2 phone hpq
          constructor
          · intro hex
            rcases hex with h | h
            · exact Or.inl (by rw [hfr, h])
            · exact Or.inr (by rw [hus.1]; exact h)
          · intro u hu
            exact ⟨by rw [hus.1]; exact hu, fun h => by rw [hfr, h]⟩
      · have hstep : (handleMessage env s m).1 = s := by
          simp [handleMessage, hb1', hb2', hb3]
        rw [hstep]
        exact ⟨fun h => h, fun u hu => ⟨hu, fun h => h⟩⟩

/-- Witness for C2 at concrete inputs: after a successful code submission
the phone is verified and no longer pending. -/
theorem phone_three_state_invariant_witness :
    phoneExclusive (handleMessage envOkW statePendingW ⟨"p", some "123456"⟩).1 "p" :=
  (phone_three_state_invariant envOkW statePendingW ⟨"p", some "123456"⟩ "p").2.1
    (Or.inr (by decide))

theorem generateCodeVal_bounds (draw : Nat) :
    100000 ≤ generateCodeVal draw ∧ generateCodeVal draw ≤ 999998 := by
  unfold generateCodeVal
  have hlt : draw % 899999 < 899999 := Nat.mod_lt _ (by norm_num)
  omega

/-- C5 counterexample: no entropy draw ever produces the numeric code
999999 — the upper bound of `crypto.randomInt(100000, 999999)` is
exclusive. -/
theorem code_999999_never_generated : ¬ ∃ draw : Nat, generateCodeVal draw = 999999 := by
  rintro ⟨draw, h⟩
  have := generateCodeVal_bounds draw
  omega

theorem digitChar_isDigit (d : Nat) (hd : d < 10) : (Nat.digitChar d).isDigit = true := by
  interval_cases d <;> decide

theorem digitChar_ne_zero_char (d : Nat) (hd : d < 10) (h0 : d ≠ 0) :
    Nat.digitChar d ≠ '0' := by
  interval_cases d
  · exact absurd rfl h0
  all_goals decide

/-- C5 amended: every generated code is a string of exactly 6 ASCII digits
whose first digit is non-zero, and the numeric value ranges over
[100000, 999998] inclusive — 999999 itself is never produced because
`crypto.randomInt`'s upper bound is exclusive. -/
theorem generated_code_six_digits (draw : Nat) :
    100000 ≤ generateCodeVal draw ∧ generateCodeVal draw ≤ 999998 ∧
    (generateCode draw).length = 6 ∧
    (∀ c ∈ (generateCode draw).data, c.isDigit = true) ∧
    (generateCode draw).data.head? ≠ some '0' := by
  obtain ⟨hlo, hhi⟩ := generateCodeVal_bounds draw
  set n := generateCodeVal draw with hn
  have h0 : n ≠ 0 := by omega
  have hne : Nat.digits 10 n ≠ [] := Nat.digits_ne_nil_iff_ne_zero.mpr h0
  have hstr : generateCode draw =
      String.mk ((Nat.digits 10 n).reverse.map Nat.digitChar) := by
    rw [generateCode, ← hn, jsNatToString, if_neg h0,
      decDigitsAux_eq_digits n n le_rfl]
  refine ⟨hlo, hhi, ?_, ?_, ?_⟩
  · rw [hstr]
    show ((Nat.digits 10 n).reverse.map Nat.digitChar).length = 6
    rw [List.length_map, List.length_reverse, Nat.digits_len 10 n (by norm_num) h0]
    have h1 : 10 ^ 5 ≤ n := by
      have : (10 : Nat) ^ 5 = 100000 := by norm_num
      omega
    have h2 : n < 10 ^ (5 + 1) := by
      have : (10 : Nat) ^ (5 + 1) = 1000000 := by norm_num
      omega
    rw [Nat.log_eq_of_pow_le_of_lt_pow h1 h2]
  · rw [hstr]
    intro c hc
    have hc' : c ∈ (Nat.digits 10 n).reverse.map Nat.digitChar := hc
    obtain ⟨d, hdm, rfl⟩ := List.mem_map.mp hc'
    exact digitChar_isDigit d
      (Nat.digits_lt_base (by norm_num) (List.mem_reverse.mp hdm))
  · rw [hstr]
    show ((Nat.digits 10 n).reverse.map Nat.digitChar).head? ≠ some '0'
    rw [List.head?_map, List.head?_reverse, List.getLast?_eq_getLast _ hne]
    intro hcontra
    have hgl : Nat.digitChar ((Nat.digits 10 n).getLast hne) = '0' := by
      simpa using hcontra
    exact absurd hgl
      (digitChar_ne_zero_char _
        (Nat.digits_lt_base (by norm_num) (List.getLast_mem hne))
        (Nat.getLast_digit_ne_zero 10 h0))

/-- Witness for the amended C5 at a concrete draw. -/
theorem generated_code_six_digits_witness :
    (generateCode 0).length = 6 ∧ '1'.isDigit = true :=
  ⟨(generated_code_six_digits 0).2.2.1,
   (generated_code_six_digits 0).2.2.2.1 '1' (by decide)⟩
